import Mathlib

/-!
Verification of the Falcon API client core (`src/crowdstrike/FalconAPIClient.ts`):
token lifecycle, the retry / rate-limit engine, and the pagination loop, in a
shallow embedding.

Conventions of the embedding:
* Times are unix seconds (`Date.now() / 1000`); durations in sleep traces are
  milliseconds, as passed to `sleep`. All numbers appearing in the modelled
  code paths are combined only by addition, subtraction, multiplication by a
  constant and comparisons, which are exact on JS floats for these magnitudes,
  so JS numbers are embedded as `Int` (fractional unix timestamps are only a
  sub-second shift of the clock and decide nothing in the code).
* JavaScript truthiness on a number is "nonzero"; a missing header read through
  `Number(null)` is stored as `0`.
* A call to `sleep` with a non-positive argument suspends for (essentially) no
  time; the effective suspension is `effSleep`.
* The retry engine `@lifeomic/attempt` (an external dependency) is modelled by
  its documented semantics: `attemptNum` is zero-based, `attemptsRemaining`
  starts at `maxAttempts` and is decremented after each failed attempt, calling
  `abort()` inside `handleError` rethrows the current attempt error with no
  backoff sleep, an error thrown by `handleError` itself propagates, and
  otherwise a backoff sleep precedes the next attempt.
-/

/-- Bearer token as held by the client: secret plus absolute expiry in unix
seconds. Modelled from the spec: the `OAuth2Token` shape of `types.ts` (not in
scope), "Token: {secret, expiresAt: absolute timestamp}". -/
structure OAuth2Token where
  token : String
  expiresAt : Int
  deriving DecidableEq, Repr

/-- Rate limit state recorded after every response (lines 327-333):
`X-RateLimit-Remaining` and `X-RateLimit-Limit` go through `Number`, so a
missing header is stored as `0`; `X-RateLimit-RetryAfter` is guarded by `&&`,
so a missing header is stored as null (`none`). -/
structure RateLimitState where
  limitRemaining : Int
  perMinuteLimit : Int
  retryAfter : Option Int
  deriving DecidableEq, Repr

/-- Rate limit configuration, `{reserveLimit, cooldownPeriod}` (`cooldownPeriod`
in ms). Modelled from the spec: the `RateLimitConfig` shape of `types.ts`. -/
structure RateLimitConfig where
  reserveLimit : Int
  cooldownPeriod : Int
  deriving DecidableEq, Repr

/-- Lines 35-38; the client always uses this value (line 68 marks the field
`readonly` and initializes it with the default). -/
def DEFAULT_RATE_LIMIT_CONFIG : RateLimitConfig :=
  { reserveLimit := 30, cooldownPeriod := 1000 }

/-- The `RateLimitState` stored at lines 327-333, as a function of the three
rate limit headers of the response (`none` = header absent). -/
def mkRateLimitState (remaining limit retryAfterH : Option Int) : RateLimitState :=
  { limitRemaining := remaining.getD 0,
    perMinuteLimit := limit.getD 0,
    retryAfter := retryAfterH }

/-- The `timeToSleepInSeconds` computation of `handle429Error` (lines 404-406):
`this.rateLimitState.retryAfter ? this.rateLimitState.retryAfter + 60 -
unixTimeNow : 0`. JS truthiness makes a stored `retryAfter` of `0` take the
else branch. -/
def timeToSleepInSeconds (st : RateLimitState) (now : Int) : Int :=
  match st.retryAfter with
  | some r => if r = 0 then 0 else r + 60 - now
  | none => 0

/-- Effective duration of a `sleep t` call: `setTimeout` treats a non-positive
delay as an immediate wake-up. -/
def effSleep (t : Int) : Int :=
  if t ≤ 0 then 0 else t

/-- Effective suspensions (in ms, in order) performed by `handle429Error`
(lines 391-431): the initial sleep of `timeToSleepInSeconds * 1000`, then the
cooldown sleep exactly when the stored `limitRemaining` is truthy (nonzero)
and at most `reserveLimit` (lines 418-430). -/
def handle429Sleeps (cfg : RateLimitConfig) (st : RateLimitState) (now : Int) : List Int :=
  let s1 := effSleep (timeToSleepInSeconds st now * 1000)
  if st.limitRemaining ≠ 0 ∧ st.limitRemaining ≤ cfg.reserveLimit then
    [s1, cfg.cooldownPeriod]
  else
    [s1]

/-- The invocation suspends for the cooldown period, i.e. a second suspension
follows the initial sleep. -/
def cooldownTaken (cfg : RateLimitConfig) (st : RateLimitState) (now : Int) : Prop :=
  (handle429Sleeps cfg st now).length = 2

instance (cfg : RateLimitConfig) (st : RateLimitState) (now : Int) :
    Decidable (cooldownTaken cfg st now) :=
  inferInstanceAs (Decidable ((handle429Sleeps cfg st now).length = 2))

/-- Effective duration (in seconds) of the initial suspension of
`handle429Error` (line 416). -/
def initialSleepSeconds (st : RateLimitState) (now : Int) : Int :=
  effSleep (timeToSleepInSeconds st now)

/-- Responses of the token endpoint across successive successful exchanges:
the n-th exchange yields `access_token = accessTokens n` and
`expires_in = expiresIn n`. -/
structure TokenWorld where
  accessTokens : Nat → String
  expiresIn : Nat → Int

/-- Client authentication state: the held token (line 66, initially absent)
and the number of token exchanges performed so far. -/
structure AuthState where
  token : Option OAuth2Token
  exchanges : Nat
  deriving DecidableEq, Repr

/-- Lines 434-436: `token && token.expiresAt > getUnixTimeNow()` (the non-null
part is carried by `Option` in the embedding). -/
def isValidToken (t : OAuth2Token) (now : Int) : Bool :=
  decide (now < t.expiresAt)

/-- Token built from a successful exchange (lines 294-307):
`expiresAt = getUnixTimeNow() + response.expires_in`. -/
def freshToken (w : TokenWorld) (now : Int) (n : Nat) : OAuth2Token :=
  { token := w.accessTokens n, expiresAt := now + w.expiresIn n }

/-- The `authenticate` method (lines 78-83), on the path where the exchange
succeeds: a fresh token is exchanged and stored iff the held token is absent
or fails `isValidToken`; otherwise the held token is returned with no
exchange. -/
def authenticate (w : TokenWorld) (now : Int) (s : AuthState) : OAuth2Token × AuthState :=
  match s.token with
  | none =>
    let t := freshToken w now s.exchanges
    (t, { token := some t, exchanges := s.exchanges + 1 })
  | some t =>
    if isValidToken t now then (t, s)
    else
      let t2 := freshToken w now s.exchanges
      (t2, { token := some t2, exchanges := s.exchanges + 1 })

/-- One page response of `paginateResources`: the length of the `resources`
array and `meta.pagination.total` (`none` = the field is absent). -/
structure Page where
  len : Nat
  total : Option Nat
  deriving DecidableEq, Repr

/-- Cumulative `seen` before the n-th page request of `paginateResources`
(0-based): `seen` starts at `0` (line 188) and each iteration adds the page
length (line 233). -/
def seenAt (pages : Nat → Page) : Nat → Nat
  | 0 => 0
  | n + 1 => seenAt pages n + (pages n).len

/-- The `finished` test of line 235, `seen === 0 || seen >= total`, as a
function of the just-received page and the updated `seen`: an absent `total`
makes the comparison false (`seen >= undefined` is false in JS; the `total!`
assertion at line 234 is type-level only). -/
def finishedTest (p : Page) (seen2 : Nat) : Bool :=
  seen2 == 0 ||
    (match p.total with
     | some t => decide (t ≤ seen2)
     | none => false)

/-- The `finished` flag after the n-th page request (0-based). -/
def finishedAt (pages : Nat → Page) (n : Nat) : Bool :=
  finishedTest (pages n) (seenAt pages (n + 1))

/-- The do-while loop of `paginateResources` (lines 194-241), run for at most
`fuel` iterations starting at request index `i` with accumulator `seen`:
returns `some (requests, seen)` once `finished` becomes true, `none` when all
`fuel` iterations leave `finished` false. -/
def paginateGo (pages : Nat → Page) : Nat → Nat → Nat → Option (Nat × Nat)
  | 0, _, _ => none
  | fuel + 1, i, seen =>
    let seen2 := seen + (pages i).len
    if finishedTest (pages i) seen2 then some (i + 1, seen2)
    else paginateGo pages fuel (i + 1) seen2

/-- The `paginateResources` method (lines 179-242) applied to a stream of page
responses, with a fuel bound on the number of iterations observed. -/
def paginateResources (pages : Nat → Page) (fuel : Nat) : Option (Nat × Nat) :=
  paginateGo pages fuel 0 0

/-- Typed errors of the integration SDK as thrown by the client, carrying the
HTTP status that produced them. -/
inductive FalconError where
  | authentication : Nat → FalconError
  | authorization : Nat → FalconError
  | api : Nat → FalconError
  deriving DecidableEq, Repr

/-- Outcome of one POST of `authRequestAttempt` to the token endpoint
(lines 251-272): the parsed body on `response.ok`, otherwise the HTTP
status of the API error thrown. -/
inductive TokenAttemptOutcome where
  | success : String → Int → TokenAttemptOutcome
  | failure : Nat → TokenAttemptOutcome
  deriving DecidableEq, Repr

inductive TokenResult where
  | ok : OAuth2Token → TokenResult
  | err : FalconError → TokenResult
  deriving DecidableEq, Repr

/-- Observable summary of a `requestOAuth2Token` run: attempts made, backoff
sleeps performed between attempts, and the outcome. -/
structure TokenRetrySummary where
  attempts : Nat
  delays : Nat
  result : TokenResult
  deriving DecidableEq, Repr

/-- Retry loop of `requestOAuth2Token` (lines 274-293) over the
`@lifeomic/attempt` engine: `num` is the zero-based `attemptNum` and `rem` the
`attemptsRemaining` before this attempt. The `handleError` of lines 276-292
aborts on status 400 (the original API error is rethrown, with no backoff
sleep) and throws `AuthenticationError` on status 403 (carrying the original
status); any other failure retries until attempts are exhausted, with one
backoff sleep per retry. A successful attempt yields the token of lines
295-306 with `expiresAt = now + expires_in`. -/
def tokenRetryGo (responses : Nat → TokenAttemptOutcome) (now : Int) :
    Nat → Nat → TokenRetrySummary
  | _, 0 => { attempts := 0, delays := 0, result := .err (.api 0) }
  | num, rem + 1 =>
    match responses num with
    | .success tok ein =>
      { attempts := 1, delays := 0,
        result := .ok { token := tok, expiresAt := now + ein } }
    | .failure st =>
      if st = 403 then { attempts := 1, delays := 0, result := .err (.authentication st) }
      else if st = 400 then { attempts := 1, delays := 0, result := .err (.api st) }
      else if rem = 0 then { attempts := 1, delays := 0, result := .err (.api st) }
      else
        let rest := tokenRetryGo responses now (num + 1) rem
        { attempts := rest.attempts + 1, delays := rest.delays + 1, result := rest.result }

/-- The `requestOAuth2Token` method as a whole: the retry loop started on the
first attempt with the full attempt budget. -/
def requestOAuth2Token (responses : Nat → TokenAttemptOutcome) (now : Int)
    (maxAttempts : Nat) : TokenRetrySummary :=
  tokenRetryGo responses now 0 maxAttempts

/-- One HTTP response to a resource request: `ok` is `response.ok` (status in
200-299), `status` the HTTP status, plus the three rate limit headers read at
lines 327-333 (`none` = header absent). -/
structure ResourceResponse where
  ok : Bool
  status : Nat
  remainingHeader : Option Int
  limitHeader : Option Int
  retryAfterHeader : Option Int
  deriving DecidableEq, Repr

/-- Environment of one `executeAPIRequestWithRetries` call: the response to
each attempt (by zero-based attempt number), the token endpoint behaviour, and
the clock (held fixed — requests are modelled as instantaneous). -/
structure ResourceWorld where
  responses : Nat → ResourceResponse
  tokenWorld : TokenWorld
  now : Int

/-- Error thrown by `requestAttempt` for a non-ok response (lines 339-358):
401 → `AuthenticationError`, 403 → `AuthorizationError`, anything else →
`APIError`. -/
def attemptError (r : ResourceResponse) : FalconError :=
  if r.status = 401 then .authentication r.status
  else if r.status = 403 then .authorization r.status
  else .api r.status

inductive ReqResult where
  | ok : ReqResult
  | err : FalconError → ReqResult
  deriving DecidableEq, Repr

/-- Observable summary of a resource-request retry run: attempts made, calls
to `authenticate()` made from inside `handleError`, backoff sleeps between
attempts, the suspensions performed by `handle429Error` (ms), the client auth
state after the run, and the outcome. -/
structure RetrySummary where
  attempts : Nat
  handlerAuthCalls : Nat
  delays : Nat
  sleeps429 : List Int
  finalState : AuthState
  result : ReqResult
  deriving DecidableEq, Repr

/-- Retry loop of `executeAPIRequestWithRetries` (lines 361-389) over
`@lifeomic/attempt`: `num` is the zero-based `attemptNum` and `rem` the
`attemptsRemaining` before this attempt. The `handleError` of lines 363-387:
on 401 it calls `authenticate()` when `attemptNum <= 1` and aborts otherwise;
on 403 it aborts; on 429 it runs `handle429Error` against the rate limit state
just stored from this response (the client's config is always the default,
line 68). An abort rethrows the error of the current attempt, with no backoff
sleep and no further attempt. -/
def resourceRetryGo (w : ResourceWorld) : Nat → Nat → AuthState → RetrySummary
  | _, 0, s =>
    { attempts := 0, handlerAuthCalls := 0, delays := 0, sleeps429 := [],
      finalState := s, result := .err (.api 0) }
  | num, rem + 1, s =>
    let r := w.responses num
    if r.ok then
      { attempts := 1, handlerAuthCalls := 0, delays := 0, sleeps429 := [],
        finalState := s, result := .ok }
    else
      let e := attemptError r
      let rls := mkRateLimitState r.remainingHeader r.limitHeader r.retryAfterHeader
      let doAuth : Bool := r.status == 401 && ! decide (num > 1)
      let aborted : Bool := (r.status == 401 && decide (num > 1)) || r.status == 403
      let s1 := if doAuth then (authenticate w.tokenWorld w.now s).2 else s
      let ac : Nat := if doAuth then 1 else 0
      let sl : List Int :=
        if r.status == 429 then handle429Sleeps DEFAULT_RATE_LIMIT_CONFIG rls w.now else []
      if aborted then
        { attempts := 1, handlerAuthCalls := ac, delays := 0, sleeps429 := sl,
          finalState := s1, result := .err e }
      else if rem = 0 then
        { attempts := 1, handlerAuthCalls := ac, delays := 0, sleeps429 := sl,
          finalState := s1, result := .err e }
      else
        let rest := resourceRetryGo w (num + 1) rem s1
        { attempts := rest.attempts + 1, handlerAuthCalls := rest.handlerAuthCalls + ac,
          delays := rest.delays + 1, sleeps429 := sl ++ rest.sleeps429,
          finalState := rest.finalState, result := rest.result }

/-- The `executeAPIRequestWithRetries` method (lines 309-389): one
`authenticate()` call up front (line 313), then the retry loop with the
configured `maxAttempts`. -/
def executeAPIRequestWithRetries (w : ResourceWorld) (maxAttempts : Nat)
    (s : AuthState) : RetrySummary :=
  resourceRetryGo w 0 maxAttempts (authenticate w.tokenWorld w.now s).2

/-! Concrete inputs used by counterexamples and witnesses. -/

/-- A pagination run whose first page holds 3 of a reported 10 items and whose
second page is empty. -/
def pagesEmptyMid : Nat → Page := fun n =>
  if n = 0 then { len := 3, total := some 10 } else { len := 0, total := some 10 }

/-- A pagination run whose first response omits `total` and whose second
reports `total = 2`. -/
def pagesLateTotal : Nat → Page := fun n =>
  if n = 0 then { len := 1, total := none } else { len := 1, total := some 2 }

/-- A pagination run of one-item pages with a constant reported total of 2. -/
def pagesTwo : Nat → Page := fun _ =>
  { len := 1, total := some 2 }

/-- A token endpoint that always succeeds with `expires_in = 1800`. -/
def tokenWorldEx : TokenWorld :=
  { accessTokens := fun _ => "fresh", expiresIn := fun _ => 1800 }

/-- A resource endpoint that answers 401 to every attempt. -/
def world401 : ResourceWorld :=
  { responses := fun _ =>
      { ok := false, status := 401, remainingHeader := none, limitHeader := none,
        retryAfterHeader := none },
    tokenWorld := tokenWorldEx,
    now := 1000 }

/-- A resource endpoint that answers 403 to every attempt. -/
def world403 : ResourceWorld :=
  { responses := fun _ =>
      { ok := false, status := 403, remainingHeader := none, limitHeader := none,
        retryAfterHeader := none },
    tokenWorld := tokenWorldEx,
    now := 1000 }

/-- A client state holding a token that is still far from expiry at
`now = 1000`. -/
def stateHeld : AuthState :=
  { token := some { token := "held", expiresAt := 5000 }, exchanges := 0 }

/-! Helper lemmas. -/

theorem isValidToken_iff (t : OAuth2Token) (now : Int) :
    isValidToken t now = true ↔ now < t.expiresAt := by
  simp [isValidToken]

theorem authenticate_of_none {w : TokenWorld} {now : Int} {s : AuthState}
    (h : s.token = none) :
    authenticate w now s =
      (freshToken w now s.exchanges,
        { token := some (freshToken w now s.exchanges), exchanges := s.exchanges + 1 }) := by
  simp [authenticate, h]

theorem authenticate_of_invalid {w : TokenWorld} {now : Int} {s : AuthState} {t : OAuth2Token}
    (h : s.token = some t) (hv : isValidToken t now = false) :
    authenticate w now s =
      (freshToken w now s.exchanges,
        { token := some (freshToken w now s.exchanges), exchanges := s.exchanges + 1 }) := by
  simp [authenticate, h, hv]

theorem authenticate_of_valid {w : TokenWorld} {now : Int} {s : AuthState} {t : OAuth2Token}
    (h : s.token = some t) (hv : isValidToken t now = true) :
    authenticate w now s = (t, s) := by
  simp [authenticate, h, hv]

theorem finishedTest_eq_true_iff (p : Page) (s : Nat) :
    finishedTest p s = true ↔ (s = 0 ∨ ∃ t, p.total = some t ∧ t ≤ s) := by
  cases h : p.total <;> simp [finishedTest, h]

theorem seenAt_succ (pages : Nat → Page) (n : Nat) :
    seenAt pages (n + 1) = seenAt pages n + (pages n).len := rfl

theorem seenAt_pos (pages : Nat → Page) (h : (pages 0).len ≠ 0) (n : Nat) :
    0 < seenAt pages (n + 1) := by
  induction n with
  | zero => simp [seenAt]; omega
  | succ k ih =>
    rw [seenAt_succ]
    omega

theorem paginateGo_of_finished {pages : Nat → Page} {i : Nat}
    (h : finishedAt pages i = true) (fuel : Nat) :
    paginateGo pages (fuel + 1) i (seenAt pages i) = some (i + 1, seenAt pages (i + 1)) := by
  have hs : seenAt pages i + (pages i).len = seenAt pages (i + 1) := rfl
  unfold finishedAt at h
  simp only [paginateGo, hs, h, if_true]

theorem paginateGo_of_not_finished {pages : Nat → Page} {i : Nat}
    (h : finishedAt pages i = false) (fuel : Nat) :
    paginateGo pages (fuel + 1) i (seenAt pages i) =
      paginateGo pages fuel (i + 1) (seenAt pages (i + 1)) := by
  have hs : seenAt pages i + (pages i).len = seenAt pages (i + 1) := rfl
  unfold finishedAt at h
  simp only [paginateGo, hs, h, Bool.false_eq_true, if_false]

theorem paginateGo_sound (pages : Nat → Page) :
    ∀ fuel i n s, paginateGo pages fuel i (seenAt pages i) = some (n, s) →
      ∃ k, n = k + 1 ∧ i ≤ k ∧ k < i + fuel ∧ s = seenAt pages (k + 1) ∧
        finishedAt pages k = true ∧ ∀ m, i ≤ m → m < k → finishedAt pages m = false := by
  intro fuel
  induction fuel with
  | zero => intro i n s h; simp [paginateGo] at h
  | succ f ih =>
    intro i n s h
    cases hf : finishedAt pages i with
    | true =>
      rw [paginateGo_of_finished hf] at h
      simp only [Option.some.injEq, Prod.mk.injEq] at h
      obtain ⟨hn, hs⟩ := h
      exact ⟨i, hn.symm, le_refl i, by omega, hs.symm, hf, by intro m h1 h2; omega⟩
    | false =>
      rw [paginateGo_of_not_finished hf] at h
      obtain ⟨k, hn, hik, hkf, hs, hfin, hall⟩ := ih (i + 1) n s h
      refine ⟨k, hn, by omega, by omega, hs, hfin, ?_⟩
      intro m h1 h2
      rcases Nat.eq_or_lt_of_le h1 with h3 | h3
      · exact h3 ▸ hf
      · exact hall m h3 h2

theorem paginateGo_complete (pages : Nat → Page) (n : Nat)
    (hfin : finishedAt pages n = true)
    (hbefore : ∀ m, m < n → finishedAt pages m = false) :
    ∀ fuel i, i ≤ n → n < i + fuel →
      paginateGo pages fuel i (seenAt pages i) = some (n + 1, seenAt pages (n + 1)) := by
  intro fuel
  induction fuel with
  | zero => intro i h1 h2; omega
  | succ f ih =>
    intro i h1 h2
    rcases Nat.eq_or_lt_of_le h1 with h3 | h3
    · subst h3
      exact paginateGo_of_finished hfin f
    · rw [paginateGo_of_not_finished (hbefore i h3) f]
      exact ih (i + 1) (by omega) (by omega)

theorem paginateGo_none_of_never (pages : Nat → Page)
    (hall : ∀ m, finishedAt pages m = false) :
    ∀ fuel i, paginateGo pages fuel i (seenAt pages i) = none := by
  intro fuel
  induction fuel with
  | zero => intro i; simp [paginateGo]
  | succ f ih =>
    intro i
    rw [paginateGo_of_not_finished (hall i) f]
    exact ih (i + 1)

/-! Claim theorems. -/

/-- C2 counterexample: with the `X-RateLimit-Remaining` header present with
value 0 (which is at most the default `reserveLimit` of 30), `handle429Error`
performs only the initial sleep and skips the cooldown suspension, because
the guard at line 419 tests JS truthiness of `limitRemaining` before the
comparison. -/
theorem cooldown_guard_cex :
    (mkRateLimitState (some 0) (some 100) none).limitRemaining = 0
    ∧ ((0 : Int) ≤ DEFAULT_RATE_LIMIT_CONFIG.reserveLimit)
    ∧ handle429Sleeps DEFAULT_RATE_LIMIT_CONFIG (mkRateLimitState (some 0) (some 100) none) 500 = [0]
    ∧ ¬ cooldownTaken DEFAULT_RATE_LIMIT_CONFIG (mkRateLimitState (some 0) (some 100) none) 500 := by
  decide

/-- C2 (amended): after the initial sleep, `handle429Error` suspends for
`cooldownPeriod` iff the remaining-quota header was present with a nonzero
value at most `reserveLimit`; a remaining count of exactly 0 (or an absent
header, stored as 0) skips the cooldown. When taken, the cooldown is the
second suspension, after the initial sleep. -/
theorem cooldown_guard_iff (cfg : RateLimitConfig) (remaining limit ra : Option Int)
    (now : Int) :
    (cooldownTaken cfg (mkRateLimitState remaining limit ra) now ↔
      ∃ v, remaining = some v ∧ v ≠ 0 ∧ v ≤ cfg.reserveLimit)
    ∧ (cooldownTaken cfg (mkRateLimitState remaining limit ra) now →
        handle429Sleeps cfg (mkRateLimitState remaining limit ra) now =
          [effSleep (timeToSleepInSeconds (mkRateLimitState remaining limit ra) now * 1000),
            cfg.cooldownPeriod]) := by
  constructor
  · cases remaining with
    | none =>
      simp [cooldownTaken, handle429Sleeps, mkRateLimitState]
    | some v =>
      by_cases hc : v ≠ 0 ∧ v ≤ cfg.reserveLimit
      · simp [cooldownTaken, handle429Sleeps, mkRateLimitState, hc]
      · simp only [cooldownTaken, handle429Sleeps, mkRateLimitState] at *
        simp [hc]
  · intro h
    by_cases hc : (mkRateLimitState remaining limit ra).limitRemaining ≠ 0 ∧
        (mkRateLimitState remaining limit ra).limitRemaining ≤ cfg.reserveLimit
    · simp [handle429Sleeps, hc]
    · exfalso
      simp [cooldownTaken, handle429Sleeps, hc] at h

/-- C3 counterexample: with `retryAfter` present with value 0 and `now = 0`,
the initial sleep is 0 seconds, not the claimed
`retryAfter + 60 - now` (= 60) — line 404 tests JS truthiness of
`retryAfter`, not presence. -/
theorem initial_sleep_cex :
    (mkRateLimitState (some 5) (some 100) (some 0)).retryAfter = some 0
    ∧ initialSleepSeconds (mkRateLimitState (some 5) (some 100) (some 0)) 0 = 0
    ∧ effSleep ((0 : Int) + 60 - 0) = 60
    ∧ initialSleepSeconds (mkRateLimitState (some 5) (some 100) (some 0)) 0 ≠
        effSleep ((0 : Int) + 60 - 0) := by
  decide

/-- C3 (amended): the initial sleep of `handle429Error` is
`retryAfter + 60 - now` seconds (clamped at zero) when `retryAfter` is
present and nonzero, and 0 seconds when `retryAfter` is absent or 0; the
initial sleep is always the first suspension of the invocation. -/
theorem initial_sleep_formula (cfg : RateLimitConfig) (remaining limit ra : Option Int)
    (now : Int) :
    (∀ r, ra = some r → r ≠ 0 →
      initialSleepSeconds (mkRateLimitState remaining limit ra) now = effSleep (r + 60 - now))
    ∧ (ra = none → initialSleepSeconds (mkRateLimitState remaining limit ra) now = 0)
    ∧ (ra = some 0 → initialSleepSeconds (mkRateLimitState remaining limit ra) now = 0)
    ∧ (handle429Sleeps cfg (mkRateLimitState remaining limit ra) now).head? =
        some (effSleep (timeToSleepInSeconds (mkRateLimitState remaining limit ra) now * 1000)) := by
  refine ⟨?_, ?_, ?_, ?_⟩
  · intro r hra hr
    simp [initialSleepSeconds, timeToSleepInSeconds, mkRateLimitState, hra, hr]
  · intro hra
    simp [initialSleepSeconds, timeToSleepInSeconds, mkRateLimitState, hra, effSleep]
  · intro hra
    simp [initialSleepSeconds, timeToSleepInSeconds, mkRateLimitState, hra, effSleep]
  · unfold handle429Sleeps
    split <;> rfl

/-- C6: `authenticate()` exchanges and stores a fresh token iff the held token
is absent or `expiresAt <= now`; a valid held token is returned unchanged with
no exchange. In particular a token expiring one second in the past is replaced
by a fresh exchange, and one expiring one second in the future is reused with
the state (hence the exchange count) unchanged. -/
theorem authenticate_refresh_policy (w : TokenWorld) (now : Int) (s : AuthState) :
    (s.token = none →
      authenticate w now s =
        (freshToken w now s.exchanges,
          { token := some (freshToken w now s.exchanges), exchanges := s.exchanges + 1 }))
    ∧ (∀ t, s.token = some t → t.expiresAt ≤ now →
      authenticate w now s =
        (freshToken w now s.exchanges,
          { token := some (freshToken w now s.exchanges), exchanges := s.exchanges + 1 }))
    ∧ (∀ t, s.token = some t → now < t.expiresAt → authenticate w now s = (t, s))
    ∧ (∀ t, s.token = some t → t.expiresAt = now - 1 →
        (authenticate w now s).2.exchanges = s.exchanges + 1 ∧
          (authenticate w now s).2.token = some (freshToken w now s.exchanges))
    ∧ (∀ t, s.token = some t → t.expiresAt = now + 1 → authenticate w now s = (t, s)) := by
  refine ⟨?_, ?_, ?_, ?_, ?_⟩
  · exact fun h => authenticate_of_none h
  · intro t ht hle
    exact authenticate_of_invalid ht (by simp [isValidToken]; omega)
  · intro t ht hlt
    exact authenticate_of_valid ht ((isValidToken_iff t now).2 hlt)
  · intro t ht he
    rw [authenticate_of_invalid ht (by simp [isValidToken]; omega)]
    exact ⟨rfl, rfl⟩
  · intro t ht he
    exact authenticate_of_valid ht ((isValidToken_iff t now).2 (by omega))

/-- C6 witness: a held token expiring at 1001 is reused unchanged at
`now = 1000`. -/
theorem authenticate_refresh_policy_w :
    authenticate tokenWorldEx 1000
        { token := some { token := "near", expiresAt := 1001 }, exchanges := 4 } =
      ({ token := "near", expiresAt := 1001 },
        { token := some { token := "near", expiresAt := 1001 }, exchanges := 4 }) :=
  (authenticate_refresh_policy tokenWorldEx 1000 _).2.2.2.2
    { token := "near", expiresAt := 1001 } rfl (by decide)

/-- C7: assuming every exchange reports a positive `expires_in`, the token
returned by `authenticate()` satisfies `expiresAt > now`. -/
theorem authenticate_returns_unexpired (w : TokenWorld)
    (hpos : ∀ n, 0 < w.expiresIn n) (now : Int) (s : AuthState) :
    now < ((authenticate w now s).1).expiresAt := by
  cases ht : s.token with
  | none =>
    rw [authenticate_of_none ht]
    have := hpos s.exchanges
    show now < now + w.expiresIn s.exchanges
    omega
  | some t =>
    cases hv : isValidToken t now with
    | true =>
      rw [authenticate_of_valid ht hv]
      exact (isValidToken_iff t now).1 hv
    | false =>
      rw [authenticate_of_invalid ht hv]
      have := hpos s.exchanges
      show now < now + w.expiresIn s.exchanges
      omega

/-- C7 witness: with no held token at `now = 1000` and `expires_in = 1800`,
the returned token is unexpired. -/
theorem authenticate_returns_unexpired_w :
    (1000 : Int) <
      ((authenticate tokenWorldEx 1000 { token := none, exchanges := 0 }).1).expiresAt :=
  authenticate_returns_unexpired tokenWorldEx (fun _ => by simp [tokenWorldEx]) 1000
    { token := none, exchanges := 0 }

/-- C4 counterexample: a run whose second page is empty while `seen = 3` is
below the reported total of 10: the iteration neither increases `seen` nor
terminates the loop. -/
theorem seen_progress_cex :
    (pagesEmptyMid 1).len = 0
    ∧ seenAt pagesEmptyMid 2 = seenAt pagesEmptyMid 1
    ∧ finishedAt pagesEmptyMid 1 = false
    ∧ ¬ (seenAt pagesEmptyMid 1 < seenAt pagesEmptyMid 2 ∨ finishedAt pagesEmptyMid 1 = true) := by
  decide

/-- C4 (amended): `seen` never decreases, and an iteration strictly increases
it iff its page is non-empty; an iteration that neither increases `seen` nor
terminates the loop is an empty page arriving while `0 < seen` and `seen` is
below any reported total. -/
theorem seen_monotone_progress (pages : Nat → Page) (n : Nat) :
    seenAt pages n ≤ seenAt pages (n + 1)
    ∧ (seenAt pages n < seenAt pages (n + 1) ↔ (pages n).len ≠ 0)
    ∧ (seenAt pages (n + 1) = seenAt pages n ∧ finishedAt pages n = false →
        0 < seenAt pages n ∧ ∀ t, (pages n).total = some t → seenAt pages n < t) := by
  have hs : seenAt pages (n + 1) = seenAt pages n + (pages n).len := rfl
  refine ⟨by omega, by omega, ?_⟩
  rintro ⟨he, hf⟩
  unfold finishedAt at hf
  have hft := mt (finishedTest_eq_true_iff (pages n) (seenAt pages (n + 1))).2 (by simp [hf])
  rcases not_or.1 hft with ⟨h0, hex⟩
  push_neg at hex
  refine ⟨by omega, ?_⟩
  intro t ht
  have := hex t ht
  omega

/-- C4 witness: on the counterexample run, the stalled non-terminating
iteration indeed has `0 < seen` below the reported total. -/
theorem seen_monotone_progress_w :
    0 < seenAt pagesEmptyMid 1 ∧
      ∀ t, (pagesEmptyMid 1).total = some t → seenAt pagesEmptyMid 1 < t :=
  (seen_monotone_progress pagesEmptyMid 1).2.2 ⟨by decide, by decide⟩

/-- C5: an empty first page terminates the run after exactly one request with
`seen = 0`, whatever the reported total; the `finished` flag after an
iteration holds iff `seen = 0` or a reported total satisfies `total <= seen`;
and the loop terminates exactly at the first iteration whose `finished` flag
holds, returning that request count and `seen`. -/
theorem pagination_termination :
    (∀ pages fuel, (pages 0).len = 0 → paginateResources pages (fuel + 1) = some (1, 0))
    ∧ (∀ pages n, finishedAt pages n = true ↔
        (seenAt pages (n + 1) = 0 ∨ ∃ t, (pages n).total = some t ∧ t ≤ seenAt pages (n + 1)))
    ∧ (∀ pages fuel n s, paginateResources pages fuel = some (n + 1, s) →
        s = seenAt pages (n + 1) ∧ finishedAt pages n = true ∧
          ∀ m, m < n → finishedAt pages m = false)
    ∧ (∀ pages n, finishedAt pages n = true → (∀ m, m < n → finishedAt pages m = false) →
        ∀ fuel, n < fuel → paginateResources pages fuel = some (n + 1, seenAt pages (n + 1))) := by
  refine ⟨?_, ?_, ?_, ?_⟩
  · intro pages fuel h
    have h1 : seenAt pages 1 = 0 := by simp [seenAt, h]
    have hfin : finishedAt pages 0 = true := by
      unfold finishedAt
      rw [h1]
      simp [finishedTest]
    have h2 := paginateGo_of_finished hfin fuel
    rw [h1] at h2
    exact h2
  · intro pages n
    unfold finishedAt
    exact finishedTest_eq_true_iff _ _
  · intro pages fuel n s h
    obtain ⟨k, hk, _, _, hs, hfin, hall⟩ :=
      paginateGo_sound pages fuel 0 (n + 1) s (by exact h)
    have hkn : k = n := by omega
    subst hkn
    exact ⟨hs, hfin, fun m hm => hall m (Nat.zero_le m) hm⟩
  · intro pages n hfin hbef fuel hlt
    exact paginateGo_complete pages n hfin hbef fuel 0 (Nat.zero_le n) (by omega)

/-- C5 witness: one-item pages with total 2 finish at the second request with
`seen = 2`. -/
theorem pagination_termination_w :
    paginateResources pagesTwo 3 = some (2, seenAt pagesTwo 2) :=
  pagination_termination.2.2.2 pagesTwo 1 (by decide) (by decide) 3 (by omega)

/-- C10 counterexample: a run whose first response omits `total` still
terminates once a later response reports a total that `seen` reaches — one
absent total does not doom every subsequent iteration. -/
theorem termination_requires_total_cex :
    (pagesLateTotal 0).len = 1
    ∧ (pagesLateTotal 0).total = none
    ∧ paginateResources pagesLateTotal 5 = some (2, 2) := by
  decide

/-- C10 (amended): for a run whose first page is non-empty, an iteration can
set `finished` only if its own response reports a total with `total <= seen`;
an iteration whose response lacks `total` leaves `finished` false; hence if
every response lacks `total`, no amount of fuel terminates the loop. -/
theorem termination_requires_total :
    (∀ pages n, (pages 0).len ≠ 0 → finishedAt pages n = true →
      ∃ t, (pages n).total = some t ∧ t ≤ seenAt pages (n + 1))
    ∧ (∀ pages n, (pages 0).len ≠ 0 → (pages n).total = none → finishedAt pages n = false)
    ∧ (∀ pages, (pages 0).len ≠ 0 → (∀ n, (pages n).total = none) →
        ∀ fuel, paginateResources pages fuel = none) := by
  have key : ∀ (pages : Nat → Page) (n : Nat), (pages 0).len ≠ 0 →
      (pages n).total = none → finishedAt pages n = false := by
    intro pages n hlen htot
    unfold finishedAt
    have hp := seenAt_pos pages hlen n
    simp only [finishedTest, htot, Bool.or_false]
    exact beq_eq_false_iff_ne.mpr (by omega)
  refine ⟨?_, key, ?_⟩
  · intro pages n hlen hfin
    unfold finishedAt at hfin
    rcases (finishedTest_eq_true_iff (pages n) (seenAt pages (n + 1))).1 hfin with h0 | hex
    · have := seenAt_pos pages hlen n
      omega
    · exact hex
  · intro pages hlen hall fuel
    exact paginateGo_none_of_never pages (fun m => key pages m hlen (hall m)) fuel 0

/-- C10 witness: a run that never reports a total and has a non-empty first
page never finishes. -/
theorem termination_requires_total_w :
    paginateResources (fun _ => { len := 1, total := none }) 7 = none :=
  termination_requires_total.2.2 (fun _ => { len := 1, total := none })
    (by decide) (fun _ => rfl) 7

/-- C9: a non-ok 403 response to any attempt of a resource request makes the
handler abort: the run ends at once with `AuthorizationError`, no further
attempt, no backoff sleep, no authentication call, and the client state
unchanged — on whichever attempt the 403 occurs. -/
theorem resource_403_aborts (w : ResourceWorld) (num rem : Nat) (s : AuthState)
    (hok : (w.responses num).ok = false) (hst : (w.responses num).status = 403) :
    resourceRetryGo w num (rem + 1) s =
      { attempts := 1, handlerAuthCalls := 0, delays := 0, sleeps429 := [],
        finalState := s, result := .err (.authorization 403) } := by
  simp [resourceRetryGo, hok, hst, attemptError]

/-- C9 witness: a 403 on the first attempt with a full budget of 5. -/
theorem resource_403_aborts_w :
    resourceRetryGo world403 0 (4 + 1) stateHeld =
      { attempts := 1, handlerAuthCalls := 0, delays := 0, sleeps429 := [],
        finalState := stateHeld, result := .err (.authorization 403) } :=
  resource_403_aborts world403 0 4 stateHeld (by decide) (by decide)

/-- C1 counterexample: with every response a 401 and a held token that is
still unexpired, the run makes 3 attempts (not 2: the guard
`attemptContext.attemptNum > 1` over the zero-based `attemptNum` of
`@lifeomic/attempt` only aborts from the third attempt on), and the held
token is never replaced (`authenticate()` does not force an exchange while
the held token is valid): the final state equals the initial one with 0
exchanges. -/
theorem resource_401_policy_cex :
    executeAPIRequestWithRetries world401 5 stateHeld =
      { attempts := 3, handlerAuthCalls := 2, delays := 2, sleeps429 := [],
        finalState := stateHeld, result := .err (.authentication 401) }
    ∧ (executeAPIRequestWithRetries world401 5 stateHeld).attempts ≠ 2
    ∧ (executeAPIRequestWithRetries world401 5 stateHeld).finalState = stateHeld := by
  decide

/-- C1 (amended): a non-ok 401 on an attempt with zero-based `attemptNum` at
most 1 (first or second attempt) triggers one `authenticate()` call — which
exchanges a new token only if the held one is absent or expired, and leaves a
valid held token untouched — followed by a retry; a 401 on an attempt with
`attemptNum` at least 2 (third attempt on) aborts at once with
`AuthenticationError` and no further attempt. -/
theorem resource_401_policy (w : ResourceWorld) (num rem : Nat) (s : AuthState)
    (hok : (w.responses num).ok = false) (hst : (w.responses num).status = 401) :
    (num ≤ 1 →
      resourceRetryGo w num (rem + 2) s =
        { attempts :=
            (resourceRetryGo w (num + 1) (rem + 1)
              (authenticate w.tokenWorld w.now s).2).attempts + 1,
          handlerAuthCalls :=
            (resourceRetryGo w (num + 1) (rem + 1)
              (authenticate w.tokenWorld w.now s).2).handlerAuthCalls + 1,
          delays :=
            (resourceRetryGo w (num + 1) (rem + 1)
              (authenticate w.tokenWorld w.now s).2).delays + 1,
          sleeps429 :=
            (resourceRetryGo w (num + 1) (rem + 1)
              (authenticate w.tokenWorld w.now s).2).sleeps429,
          finalState :=
            (resourceRetryGo w (num + 1) (rem + 1)
              (authenticate w.tokenWorld w.now s).2).finalState,
          result :=
            (resourceRetryGo w (num + 1) (rem + 1)
              (authenticate w.tokenWorld w.now s).2).result })
    ∧ (2 ≤ num →
        resourceRetryGo w num (rem + 1) s =
          { attempts := 1, handlerAuthCalls := 0, delays := 0, sleeps429 := [],
            finalState := s, result := .err (.authentication 401) })
    ∧ (∀ t, s.token = some t → w.now < t.expiresAt →
        (authenticate w.tokenWorld w.now s).2 = s) := by
  refine ⟨?_, ?_, ?_⟩
  · intro h
    have h1 : ¬ (num > 1) := by omega
    simp [resourceRetryGo, hok, hst, attemptError, h1]
  · intro h
    have h1 : num > 1 := by omega
    simp [resourceRetryGo, hok, hst, attemptError, h1]
  · intro t ht hv
    rw [authenticate_of_valid ht ((isValidToken_iff t w.now).2 hv)]

/-- C1 witness: the first attempt of the all-401 run authenticates and
retries. -/
theorem resource_401_policy_w :
    resourceRetryGo world401 0 (3 + 2) stateHeld =
      { attempts :=
          (resourceRetryGo world401 1 (3 + 1)
            (authenticate world401.tokenWorld world401.now stateHeld).2).attempts + 1,
        handlerAuthCalls :=
          (resourceRetryGo world401 1 (3 + 1)
            (authenticate world401.tokenWorld world401.now stateHeld).2).handlerAuthCalls + 1,
        delays :=
          (resourceRetryGo world401 1 (3 + 1)
            (authenticate world401.tokenWorld world401.now stateHeld).2).delays + 1,
        sleeps429 :=
          (resourceRetryGo world401 1 (3 + 1)
            (authenticate world401.tokenWorld world401.now stateHeld).2).sleeps429,
        finalState :=
          (resourceRetryGo world401 1 (3 + 1)
            (authenticate world401.tokenWorld world401.now stateHeld).2).finalState,
        result :=
          (resourceRetryGo world401 1 (3 + 1)
            (authenticate world401.tokenWorld world401.now stateHeld).2).result } :=
  (resource_401_policy world401 0 3 stateHeld (by decide) (by decide)).1 (by omega)

/-- C8: inside `requestOAuth2Token`, an HTTP 400 aborts at once — the original
API error is surfaced with no further attempt and no backoff sleep; an HTTP
403 is escalated at once as `AuthenticationError` with no further attempt and
no backoff sleep; any other failing status with attempts remaining is retried
under the generic policy (one backoff sleep, then the next attempt). -/
theorem token_exchange_error_policy (responses : Nat → TokenAttemptOutcome) (now : Int)
    (num rem : Nat) :
    (responses num = .failure 400 →
      tokenRetryGo responses now num (rem + 1) =
        { attempts := 1, delays := 0, result := .err (.api 400) })
    ∧ (responses num = .failure 403 →
      tokenRetryGo responses now num (rem + 1) =
        { attempts := 1, delays := 0, result := .err (.authentication 403) })
    ∧ (∀ st, responses num = .failure st → st ≠ 400 → st ≠ 403 →
      tokenRetryGo responses now num (rem + 2) =
        { attempts := (tokenRetryGo responses now (num + 1) (rem + 1)).attempts + 1,
          delays := (tokenRetryGo responses now (num + 1) (rem + 1)).delays + 1,
          result := (tokenRetryGo responses now (num + 1) (rem + 1)).result }) := by
  refine ⟨?_, ?_, ?_⟩
  · intro h
    simp [tokenRetryGo, h]
  · intro h
    simp [tokenRetryGo, h]
  · intro st h h400 h403
    simp [tokenRetryGo, h, h400, h403]

/-- C8 witness: a token endpoint answering 400 aborts on the first attempt
with the original API error and no backoff sleep. -/
theorem token_exchange_error_policy_w :
    tokenRetryGo (fun _ => .failure 400) 100 0 (4 + 1) =
      { attempts := 1, delays := 0, result := .err (.api 400) } :=
  (token_exchange_error_policy (fun _ => .failure 400) 100 0 4).1 rfl

/-- C2 witness: a remaining count of 10 (nonzero, at most the default reserve
limit of 30) takes the cooldown. -/
theorem cooldown_guard_iff_w :
    cooldownTaken DEFAULT_RATE_LIMIT_CONFIG (mkRateLimitState (some 10) (some 100) none) 500 :=
  (cooldown_guard_iff DEFAULT_RATE_LIMIT_CONFIG (some 10) (some 100) none 500).1.mpr
    ⟨10, rfl, by decide, by decide⟩

/-- C3 witness: with `retryAfter = 120` and `now = 30`, the initial sleep is
150 seconds. -/
theorem initial_sleep_formula_w :
    initialSleepSeconds (mkRateLimitState (some 5) (some 100) (some 120)) 30 =
      effSleep (120 + 60 - 30) :=
  (initial_sleep_formula DEFAULT_RATE_LIMIT_CONFIG (some 5) (some 100) (some 120) 30).1
    120 rfl (by decide)
